import Mathlib

/-!
# Verification of the SleepAgent processing pipeline and memory subsystem

This file gives a shallow embedding, in Lean 4, of the core of the
SleepAgent repository: the short-term memory (STM) save/merge algorithm,
the long-term memory (LTM) trend/preference update, the analyzer, the
scorer, the recommender, and the orchestrating pipeline nodes.

Python numbers (floats/ints) are modelled as `ℚ`/`ℤ`/`ℕ`; Python
`round(x, n)` (banker's rounding) is modelled by `roundHE`.  Python dicts
with open key sets are modelled as insertion-ordered association lists
(`List (String × α)`) with the dict-update operation `dictInsert`, which
replaces in place on key collision and appends otherwise, exactly like
CPython dicts.  Optional / possibly-missing dict entries are modelled as
`Option` fields, with Python truthiness (`None`, `''`, `0`, `[]`, `{}`
are falsy) made explicit at every use site.

External collaborators are abstracted at their interface: the datetime
string parsers (`datetime.fromisoformat`, `strptime`) are the fields of a
`DateParser` parameter, timestamps are `ℤ` seconds (one day = 86400), and
the persistent document store is a per-user record `Store`.
-/

set_option maxRecDepth 4000

namespace SleepAgent

/-! ## Numeric helpers: Python `round` (banker's rounding) and means -/

/-- Python `round` rounds half to even: below one half round down, above
one half round up, exactly one half to the even neighbour. -/
def roundHE (q : ℚ) : ℤ :=
  if q - ⌊q⌋ < 1/2 then ⌊q⌋
  else if 1/2 < q - ⌊q⌋ then ⌊q⌋ + 1
  else if ⌊q⌋ % 2 = 0 then ⌊q⌋ else ⌊q⌋ + 1

/-- Python `round(x, 2)`. -/
def round2 (q : ℚ) : ℚ := (roundHE (100 * q) : ℚ) / 100

/-- Python `round(x, 1)`. -/
def round1 (q : ℚ) : ℚ := (roundHE (10 * q) : ℚ) / 10

/-- Source: `sum(l) / len(l)`; the 0 default is only reached on `[]`, which every
caller guards against. -/
def mean (l : List ℚ) : ℚ := l.sum / (l.length : ℚ)

/-- Python `min` over a nonempty list (0 default unreachable). -/
def listMin : List ℚ → ℚ
  | [] => 0
  | x :: xs => xs.foldl min x

/-- Python `max` over a nonempty list (0 default unreachable). -/
def listMax : List ℚ → ℚ
  | [] => 0
  | x :: xs => xs.foldl max x

theorem floor_le_roundHE (q : ℚ) : ⌊q⌋ ≤ roundHE q := by
  unfold roundHE
  split
  · exact le_refl _
  · split
    · omega
    · split <;> omega

theorem roundHE_le_floor_add_one (q : ℚ) : roundHE q ≤ ⌊q⌋ + 1 := by
  unfold roundHE
  split
  · omega
  · split
    · omega
    · split <;> omega

/-! ## Ordered association lists: CPython dict semantics

`dictInsert` is `d[k] = v`: replace in place when the key exists
(keeping its position), append otherwise. -/

def dictInsert {α : Type} (k : String) (v : α) : List (String × α) → List (String × α)
  | [] => [(k, v)]
  | (k', v') :: rest => if k' = k then (k', v) :: rest else (k', v') :: dictInsert k v rest

/-- Source: `base.update(upd)` on dicts. -/
def dictUpdate {α : Type} (base upd : List (String × α)) : List (String × α) :=
  upd.foldl (fun m kv => dictInsert kv.1 kv.2 m) base

theorem lookup_dictInsert_ne {α : Type} (k k' : String) (v : α)
    (m : List (String × α)) (h : k' ≠ k) :
    List.lookup k' (dictInsert k v m) = List.lookup k' m := by
  have hbeq : (k' == k) = false := by simp [h]
  induction m with
  | nil => simp [dictInsert, List.lookup, hbeq]
  | cons p rest ih =>
    obtain ⟨pk, pv⟩ := p
    by_cases hpk : pk = k
    · subst hpk
      simp [dictInsert, List.lookup, hbeq]
    · simp only [dictInsert, if_neg hpk, List.lookup]
      cases hkp : (k' == pk) <;> simp [ih]

/-- The list of first occurrences of `l`'s elements, in encounter order:
the iteration order of a CPython `set`/`Counter` built from `l` as far as
the code observes it. -/
def firstOccs (l : List String) : List String :=
  l.foldl (fun acc x => if x ∈ acc then acc else acc ++ [x]) []

/-- Source: `len(set(l))`. -/
def uniqueCount (l : List String) : ℕ := (firstOccs l).length

/-! ## Configuration (`src/config.py`) -/

namespace Config

def OPTIMAL_SLEEP_DURATION_MIN : ℚ := 7
def OPTIMAL_SLEEP_DURATION_MAX : ℚ := 9
def MIN_SLEEP_DURATION : ℚ := 1/2
def MAX_SLEEP_DURATION : ℚ := 16
def MAX_SLEEP_SESSIONS_PER_TASK : ℕ := 1000
def SCREEN_TIME_WARNING_HOURS : ℚ := 2
def CAFFEINE_CUTOFF_HOURS : ℤ := 8
def STM_RETENTION_DAYS : ℤ := 7
/-- Source: `USE_GEMINI` defaults to false (no API key in the environment model). -/
def USE_GEMINI : Bool := false

end Config

/-! ## Sessions (`data model`) -/

/-- The raw value stored under a session's `session_date` key: either an
already-parsed datetime (timestamp in seconds) or a string. -/
inductive DateVal where
  | dt (t : ℤ)
  | str (s : String)
deriving DecidableEq

/-- The external datetime library, abstracted at its interface:
`parseIso` is `datetime.fromisoformat` (after the `Z` replacement),
`parseYmd` is `strptime(·, '%Y-%m-%d')`, and `dtRepr` is the f-string
rendering of a datetime object. -/
structure DateParser where
  parseIso : String → Option ℤ
  parseYmd : String → Option ℤ
  dtRepr : ℤ → String

/-- One sleep session record.  A field is `none` when the key is absent;
`some ''`, `some 0`, `some []` model a key present with a falsy value. -/
structure Session where
  session_id : Option String := none
  session_date : Option DateVal := none
  bedtime : Option String := none
  waketime : Option String := none
  duration_hours : Option ℚ := none
  efficiency_score : Option ℚ := none
  interruptions : Option (List String) := none
  morning_mood : Option ℤ := none
deriving DecidableEq

/-- Python truthiness of an optional string (`None` and `''` are falsy). -/
def truthyStr : Option String → Bool
  | none => false
  | some s => s ≠ ""

/-- Python truthiness of an optional number (`None` and `0` are falsy). -/
def truthyQ : Option ℚ → Bool
  | none => false
  | some q => q ≠ 0

/-- Python truthiness of an optional integer. -/
def truthyZ : Option ℤ → Bool
  | none => false
  | some z => z ≠ 0

/-- Source: `[s.get('duration_hours', 0) for s in sessions if s.get('duration_hours')]` -/
def durationsOf (sessions : List Session) : List ℚ :=
  sessions.filterMap fun s =>
    match s.duration_hours with
    | some q => if q = 0 then none else some q
    | none => none

/-- Source: `[s.get('efficiency_score', 0) for s in sessions if s.get('efficiency_score')]` -/
def efficienciesOf (sessions : List Session) : List ℚ :=
  sessions.filterMap fun s =>
    match s.efficiency_score with
    | some q => if q = 0 then none else some q
    | none => none

/-- Source: `[s.get('bedtime') for s in sessions if s.get('bedtime')]` -/
def bedtimesOf (sessions : List Session) : List String :=
  sessions.filterMap fun s =>
    match s.bedtime with
    | some b => if b = "" then none else some b
    | none => none

/-- Source: `[s.get('waketime') for s in sessions if s.get('waketime')]` -/
def waketimesOf (sessions : List Session) : List String :=
  sessions.filterMap fun s =>
    match s.waketime with
    | some w => if w = "" then none else some w
    | none => none

/-- Source: `[s.get('morning_mood', 5) for s in sessions if s.get('morning_mood')]`
(the default 5 is never used: the filter requires a truthy value). -/
def moodsOf (sessions : List Session) : List ℚ :=
  sessions.filterMap fun s =>
    match s.morning_mood with
    | some z => if z = 0 then none else some (z : ℚ)
    | none => none

/-! ## Short-Term Memory (`src/memory/stm.py`) -/

/-- Source: `ShortTermMemory._parse_session_date`: `None` for a missing or falsy
value, the timestamp of a datetime object, else ISO parse then
`%Y-%m-%d` parse of a string. -/
def parse_session_date (P : DateParser) (s : Session) : Option ℤ :=
  match s.session_date with
  | none => none
  | some (.dt t) => some t
  | some (.str d) =>
    if d = "" then none
    else match P.parseIso d with
      | some t => some t
      | none => P.parseYmd d

/-- Source: `ShortTermMemory._generate_session_id`:
`f"{session_date}_{bedtime}_{waketime}"` with `''` defaults. -/
def generate_session_id (P : DateParser) (s : Session) : String :=
  let dateRepr := match s.session_date with
    | none => ""
    | some (.dt t) => P.dtRepr t
    | some (.str d) => d
  dateRepr ++ "_" ++ s.bedtime.getD "" ++ "_" ++ s.waketime.getD ""

/-- Source: `session.get('session_id') or self._generate_session_id(session)`. -/
def sessionKey (P : DateParser) (s : Session) : String :=
  match s.session_id with
  | some id => if id = "" then generate_session_id P s else id
  | none => generate_session_id P s

/-- The retention filter body: `if session_date and session_date >= cutoff_date`
(a parsed datetime object is always truthy). -/
def keepSession (P : DateParser) (cutoff : ℤ) (s : Session) : Bool :=
  match parse_session_date P s with
  | some d => cutoff ≤ d
  | none => false

/-- Source: `datetime.min` as a timestamp (year 1); the sort-key fallback, never
reached for sessions that passed the retention filter. -/
def datetimeMin : ℤ := -62135596800

/-- Stable descending insertion: place `s` before the first element whose
key is ≤ its own.  Folding it right over a list reproduces CPython's
stable `list.sort(key=…, reverse=True)`. -/
def insertDesc (key : Session → ℤ) (s : Session) : List Session → List Session
  | [] => [s]
  | t :: ts => if key t ≤ key s then s :: t :: ts else t :: insertDesc key s ts

/-- Source: `filtered_sessions.sort(key=…, reverse=True)`. -/
def sortDesc (key : Session → ℤ) (l : List Session) : List Session :=
  l.foldr (insertDesc key) []

theorem mem_insertDesc (key : Session → ℤ) (s a : Session) (l : List Session) :
    a ∈ insertDesc key s l ↔ a = s ∨ a ∈ l := by
  induction l with
  | nil => simp [insertDesc]
  | cons t ts ih =>
    simp only [insertDesc]
    split
    · simp
    · simp only [List.mem_cons, ih]
      tauto

theorem mem_sortDesc (key : Session → ℤ) (a : Session) (l : List Session) :
    a ∈ sortDesc key l ↔ a ∈ l := by
  induction l with
  | nil => simp [sortDesc]
  | cons t ts ih =>
    simp only [sortDesc, List.foldr] at *
    rw [mem_insertDesc]
    simp [ih]

/-- The merge/dedup/retention/sort core of `ShortTermMemory.save_sessions`:
build the identity-keyed map (existing first, then new sessions, new wins
on collision), drop entries outside the retention window, sort by parsed
date descending. -/
def mergedSessions (P : DateParser) (retention_days now : ℤ)
    (existing new : List Session) : List Session :=
  let m := existing.foldl (fun m s => dictInsert (sessionKey P s) s m) []
  let m := new.foldl (fun m s => dictInsert (sessionKey P s) s m) m
  let cutoff := now - retention_days * 86400
  let filtered := (m.map Prod.snd).filter (keepSession P cutoff)
  sortDesc (fun s => (parse_session_date P s).getD datetimeMin) filtered

/-- The stored STM payload `{sessions, last_updated, count}`. -/
structure StmRecord where
  sessions : List Session
  last_updated : ℤ
  count : ℕ
deriving DecidableEq

/-- Source: `ShortTermMemory.save_sessions` with the storage read/write abstracted:
`stored` is the user's current STM record (`None` when absent), the result
is the record written back. -/
def save_sessions (P : DateParser) (retention_days now : ℤ)
    (stored : Option StmRecord) (new : List Session) : StmRecord :=
  let existing := (stored.map (·.sessions)).getD []
  let filtered := mergedSessions P retention_days now existing new
  { sessions := filtered, last_updated := now, count := filtered.length }

/-- Source: `ShortTermMemory.clear_old_sessions`: a save with no additions. -/
def clear_old_sessions (P : DateParser) (retention_days now : ℤ)
    (stored : Option StmRecord) : StmRecord :=
  save_sessions P retention_days now stored []

/-! ### STM theorems -/

theorem mem_mergedSessions_keep (P : DateParser) (rd now : ℤ)
    (existing new : List Session) (s : Session)
    (h : s ∈ mergedSessions P rd now existing new) :
    keepSession P (now - rd * 86400) s = true := by
  unfold mergedSessions at h
  rw [mem_sortDesc] at h
  exact (List.mem_filter.mp h).2

/-- Claim C3: every session surviving any STM save parses to a date inside the
retention window. -/
theorem save_sessions_retention (P : DateParser) (rd now : ℤ)
    (stored : Option StmRecord) (new : List Session) (s : Session)
    (h : s ∈ (save_sessions P rd now stored new).sessions) :
    ∃ d, parse_session_date P s = some d ∧ now - rd * 86400 ≤ d := by
  have hk := mem_mergedSessions_keep P rd now _ new s h
  unfold keepSession at hk
  cases hd : parse_session_date P s with
  | none => rw [hd] at hk; simp at hk
  | some d =>
    rw [hd] at hk
    simp only [decide_eq_true_eq] at hk
    exact ⟨d, rfl, hk⟩

/-- Claim C10: a stored session always has a parseable date, and a session
whose date is missing or unparseable never survives a save. -/
theorem save_sessions_drops_dateless (P : DateParser) (rd now : ℤ)
    (stored : Option StmRecord) (new : List Session) :
    (∀ s ∈ (save_sessions P rd now stored new).sessions,
        (parse_session_date P s).isSome) ∧
    (∀ s, parse_session_date P s = none →
        s ∉ (save_sessions P rd now stored new).sessions) := by
  constructor
  · intro s hs
    obtain ⟨d, hd, _⟩ := save_sessions_retention P rd now stored new s hs
    simp [hd]
  · intro s hnone hs
    obtain ⟨d, hd, _⟩ := save_sessions_retention P rd now stored new s hs
    rw [hnone] at hd
    exact Option.noConfusion hd

/-- Claim C2: saving twice into an empty store, where both calls supply a
session with the same identity key (no explicit id on either), leaves
exactly the second call's session. -/
theorem save_sessions_dedup_second_wins (P : DateParser) (rd now : ℤ)
    (s1 s2 : Session)
    (hid1 : s1.session_id = none ∨ s1.session_id = some "")
    (hid2 : s2.session_id = none ∨ s2.session_id = some "")
    (hdate : s1.session_date = s2.session_date)
    (hbed : s1.bedtime = s2.bedtime)
    (hwake : s1.waketime = s2.waketime)
    (hparse : ∃ d2, parse_session_date P s2 = some d2 ∧ now - rd * 86400 ≤ d2) :
    (save_sessions P rd now
        (some (save_sessions P rd now none [s1])) [s2]).sessions = [s2] := by
  obtain ⟨d2, hp2, hd2⟩ := hparse
  have hkey : sessionKey P s1 = sessionKey P s2 := by
    unfold sessionKey generate_session_id
    rw [hdate, hbed, hwake]
    rcases hid1 with h1 | h1 <;> rcases hid2 with h2 | h2 <;> simp [h1, h2]
  have hkeep2 : keepSession P (now - rd * 86400) s2 = true := by
    unfold keepSession
    rw [hp2]
    simpa using hd2
  unfold save_sessions mergedSessions
  simp only [Option.map_some, Option.getD_some, Option.getD_none, Option.map_none]
  by_cases hkeep1 : keepSession P (now - rd * 86400) s1 = true
  · simp [List.foldl, dictInsert, hkeep1, hkeep2, hkey, sortDesc, insertDesc,
      List.filter]
  · simp only [List.foldl, dictInsert, List.map, List.filter, hkeep2]
    rw [Bool.not_eq_true] at hkeep1
    simp [hkeep1, hkeep2, hkey, sortDesc, insertDesc, List.filter]

/-! ### Concrete STM witnesses -/

/-- A concrete date parser for witnesses: only `"2024-01-05"` parses. -/
def wParser : DateParser :=
  { parseIso := fun _ => none
    parseYmd := fun s => if s = "2024-01-05" then some 1000 else none
    dtRepr := fun _ => "" }

def wSessA : Session :=
  { session_date := some (.str "2024-01-05"), bedtime := some "22:00",
    waketime := some "06:00", duration_hours := some 7 }

def wSessB : Session :=
  { session_date := some (.str "2024-01-05"), bedtime := some "22:00",
    waketime := some "06:00", duration_hours := some 8 }

/-- A session with no `session_date` at all. -/
def wSessNoDate : Session :=
  { bedtime := some "23:00", waketime := some "07:00", duration_hours := some 6 }

theorem save_sessions_dedup_second_wins_witness :
    (save_sessions wParser 7 1000
        (some (save_sessions wParser 7 1000 none [wSessA])) [wSessB]).sessions
      = [wSessB] :=
  save_sessions_dedup_second_wins wParser 7 1000 wSessA wSessB
    (Or.inl rfl) (Or.inl rfl) rfl rfl rfl ⟨1000, by decide, by decide⟩

theorem save_sessions_retention_witness :
    ∃ d, parse_session_date wParser wSessB = some d ∧ (1000 : ℤ) - 7 * 86400 ≤ d :=
  save_sessions_retention wParser 7 1000 none [wSessB] wSessB (by decide)

theorem save_sessions_drops_dateless_witness :
    wSessNoDate ∉ (save_sessions wParser 7 1000 none [wSessB, wSessNoDate]).sessions :=
  (save_sessions_drops_dateless wParser 7 1000 none [wSessB, wSessNoDate]).2
    wSessNoDate rfl

/-! ## Profiles and preference values -/

/-- A value stored in the open-ended LTM preference map: a number or a
string (the two shapes the code itself writes). -/
inductive PrefVal where
  | num (q : ℚ)
  | str (s : String)
deriving DecidableEq

/-- The user profile dict.  All keys optional. -/
structure Profile where
  age : Option ℤ := none
  work_schedule : Option String := none
  caffeine_intake : Option String := none
  caffeine_after_8pm : Option Bool := none
  screen_time : Option ℚ := none
  exercise : Option String := none
  stress_level : Option ℤ := none
  avg_sleep_duration : Option ℚ := none
  preferred_duration : Option PrefVal := none
  preferred_bedtime : Option PrefVal := none
deriving DecidableEq

/-! ## String renderings of numbers

Python's float formatting (`f'{x:.1f}'`, `f'{x:.0f}'`, `f'{x}'`) is
abstracted by rendering the correspondingly rounded rational; no claim
depends on the exact digits of these message strings. -/

def fmtQ (q : ℚ) : String := toString q

def fmt1 (q : ℚ) : String := toString (round1 q)

def fmt0 (q : ℚ) : String := toString (roundHE q)

/-! ## Analyzer (`src/services/analyzer.py`)

Each sub-analysis dict is a structure whose fields are all `Option`; the
all-`none` value models the empty dict `{}`. -/

structure DurationAnalysis where
  average : Option ℚ := none
  minimum : Option ℚ := none
  maximum : Option ℚ := none
  optimal_count : Option ℕ := none
  too_short_count : Option ℕ := none
  too_long_count : Option ℕ := none
  total_sessions : Option ℕ := none
  is_optimal : Option Bool := none
  ltm_average : Option ℚ := none
deriving DecidableEq

/-- Python truthiness of the `duration_analysis` dict (nonempty). -/
def DurationAnalysis.isSet (d : DurationAnalysis) : Bool :=
  d.average.isSome || d.minimum.isSome || d.maximum.isSome ||
  d.optimal_count.isSome || d.too_short_count.isSome || d.too_long_count.isSome ||
  d.total_sessions.isSome || d.is_optimal.isSome || d.ltm_average.isSome

structure ConsistencyAnalysis where
  bedtime_consistency : Option ℚ := none
  waketime_consistency : Option ℚ := none
  overall_consistency : Option ℚ := none
  unique_bedtimes : Option ℕ := none
  unique_waketimes : Option ℕ := none
deriving DecidableEq

structure EfficiencyAnalysis where
  average : Option ℚ := none
  minimum : Option ℚ := none
  maximum : Option ℚ := none
  excellent_count : Option ℕ := none
  good_count : Option ℕ := none
  fair_count : Option ℕ := none
  poor_count : Option ℕ := none
  is_efficient : Option Bool := none
  ltm_average : Option ℚ := none
deriving DecidableEq

structure InterruptionAnalysis where
  total_interruptions : Option ℕ := none
  sessions_with_interruptions : Option ℕ := none
  average_per_session : Option ℚ := none
  interruption_rate : Option ℚ := none
deriving DecidableEq

structure CaffeineAnalysis where
  caffeine_intake : Option String := none
  caffeine_after_8pm : Option Bool := none
  avg_sleep_efficiency : Option ℚ := none
  potential_impact : Option Bool := none
deriving DecidableEq

structure ScreenTimeAnalysis where
  screen_time_hours : Option ℚ := none
  avg_sleep_efficiency : Option ℚ := none
  potential_impact : Option Bool := none
  recommendation : Option String := none
deriving DecidableEq

structure ExerciseAnalysis where
  exercise_frequency : Option String := none
  has_regular_exercise : Option Bool := none
  recommendation : Option String := none
deriving DecidableEq

/-- An LTM pattern descriptor. -/
structure Pattern where
  type : String
  description : String
  confidence : ℚ
deriving DecidableEq

/-- The full analysis dict.  The analyzer always emits every sub-analysis
key (possibly as an empty dict); `ltm_patterns` is added by the reasoning
node when LTM patterns exist. -/
structure Analysis where
  duration_analysis : DurationAnalysis := {}
  consistency_analysis : ConsistencyAnalysis := {}
  efficiency_analysis : EfficiencyAnalysis := {}
  interruption_analysis : InterruptionAnalysis := {}
  caffeine_analysis : CaffeineAnalysis := {}
  screen_time_analysis : ScreenTimeAnalysis := {}
  exercise_analysis : ExerciseAnalysis := {}
  issues : List String := []
  summary : String := ""
  ltm_patterns : Option (List Pattern) := none
deriving DecidableEq

/-- Source: `SleepAnalyzer._analyze_duration`. -/
def analyze_duration (sessions : List Session) : DurationAnalysis :=
  let durations := durationsOf sessions
  if durations = [] then {}
  else
    let avg_duration := mean durations
    let min_duration := listMin durations
    let max_duration := listMax durations
    let optimal_count := durations.countP fun d =>
      decide (Config.OPTIMAL_SLEEP_DURATION_MIN ≤ d ∧ d ≤ Config.OPTIMAL_SLEEP_DURATION_MAX)
    let too_short := durations.countP fun d => decide (d < Config.OPTIMAL_SLEEP_DURATION_MIN)
    let too_long := durations.countP fun d => decide (Config.OPTIMAL_SLEEP_DURATION_MAX < d)
    { average := some (round2 avg_duration)
      minimum := some (round2 min_duration)
      maximum := some (round2 max_duration)
      optimal_count := some optimal_count
      too_short_count := some too_short
      too_long_count := some too_long
      total_sessions := some durations.length
      is_optimal := some (decide (Config.OPTIMAL_SLEEP_DURATION_MIN ≤ avg_duration ∧
        avg_duration ≤ Config.OPTIMAL_SLEEP_DURATION_MAX)) }

/-- Source: `SleepAnalyzer._analyze_consistency`. -/
def analyze_consistency (sessions : List Session) : ConsistencyAnalysis :=
  let bedtimes := bedtimesOf sessions
  let waketimes := waketimesOf sessions
  let bedtime_consistency : ℚ :=
    if bedtimes = [] then 0
    else max 0 (if 1 < bedtimes.length then
        1 - (((uniqueCount bedtimes : ℕ) : ℚ) - 1) / (bedtimes.length : ℚ) else 1)
  let waketime_consistency : ℚ :=
    if waketimes = [] then 0
    else max 0 (if 1 < waketimes.length then
        1 - (((uniqueCount waketimes : ℕ) : ℚ) - 1) / (waketimes.length : ℚ) else 1)
  { bedtime_consistency := some (round2 bedtime_consistency)
    waketime_consistency := some (round2 waketime_consistency)
    overall_consistency := some (if bedtimes ≠ [] ∧ waketimes ≠ [] then
        round2 ((bedtime_consistency + waketime_consistency) / 2) else 0)
    unique_bedtimes := some (if bedtimes = [] then 0 else uniqueCount bedtimes)
    unique_waketimes := some (if waketimes = [] then 0 else uniqueCount waketimes) }

/-- Source: `SleepAnalyzer._analyze_efficiency`. -/
def analyze_efficiency (sessions : List Session) : EfficiencyAnalysis :=
  let efficiency_scores := efficienciesOf sessions
  if efficiency_scores = [] then {}
  else
    let avg_efficiency := mean efficiency_scores
    { average := some (round2 avg_efficiency)
      minimum := some (round2 (listMin efficiency_scores))
      maximum := some (round2 (listMax efficiency_scores))
      excellent_count := some (efficiency_scores.countP fun e => decide (85 ≤ e))
      good_count := some (efficiency_scores.countP fun e => decide (70 ≤ e ∧ e < 85))
      fair_count := some (efficiency_scores.countP fun e => decide (50 ≤ e ∧ e < 70))
      poor_count := some (efficiency_scores.countP fun e => decide (e < 50))
      is_efficient := some (decide (70 ≤ avg_efficiency)) }

/-- Source: `SleepAnalyzer._analyze_interruptions`. -/
def analyze_interruptions (sessions : List Session) : InterruptionAnalysis :=
  let total_interruptions : ℕ := (sessions.map fun s => (s.interruptions.getD []).length).sum
  let sessions_with_interruptions :=
    sessions.countP fun s => decide (0 < (s.interruptions.getD []).length)
  let avg_interruptions : ℚ :=
    if sessions = [] then 0 else (total_interruptions : ℚ) / (sessions.length : ℚ)
  { total_interruptions := some total_interruptions
    sessions_with_interruptions := some sessions_with_interruptions
    average_per_session := some (round2 avg_interruptions)
    interruption_rate := some (if sessions = [] then 0
      else round2 ((sessions_with_interruptions : ℚ) / (sessions.length : ℚ))) }

/-- Source: `SleepAnalyzer._analyze_caffeine_timing`.  `profile = none` models a
missing or empty (falsy) profile dict. -/
def analyze_caffeine_timing (sessions : List Session) (profile : Option Profile) :
    CaffeineAnalysis :=
  match profile with
  | none => {}
  | some p =>
    let caffeine_intake := p.caffeine_intake.getD "none"
    let caffeine_after_8pm := p.caffeine_after_8pm.getD false
    let fallback : CaffeineAnalysis :=
      { caffeine_intake := some caffeine_intake
        caffeine_after_8pm := some caffeine_after_8pm
        potential_impact := some false }
    if caffeine_after_8pm || caffeine_intake == "medium" || caffeine_intake == "high" then
      let efficiency_scores := efficienciesOf sessions
      if efficiency_scores = [] then fallback
      else
        let avg_efficiency := mean efficiency_scores
        { caffeine_intake := some caffeine_intake
          caffeine_after_8pm := some caffeine_after_8pm
          avg_sleep_efficiency := some (round2 avg_efficiency)
          potential_impact := some (decide (avg_efficiency < 75)) }
    else fallback

/-- Source: `SleepAnalyzer._analyze_screen_time`. -/
def analyze_screen_time (sessions : List Session) (profile : Option Profile) :
    ScreenTimeAnalysis :=
  match profile with
  | none => {}
  | some p =>
    let screen_time := p.screen_time.getD 0
    let fallback : ScreenTimeAnalysis :=
      { screen_time_hours := some screen_time, potential_impact := some false }
    if Config.SCREEN_TIME_WARNING_HOURS < screen_time then
      let efficiency_scores := efficienciesOf sessions
      if efficiency_scores = [] then fallback
      else
        let avg_efficiency := mean efficiency_scores
        { screen_time_hours := some screen_time
          avg_sleep_efficiency := some (round2 avg_efficiency)
          potential_impact := some (decide (avg_efficiency < 75))
          recommendation := some ("Reduce screen time before bed (currently " ++
            fmtQ screen_time ++ " hours)") }
    else fallback

/-- Source: `SleepAnalyzer._analyze_exercise_timing`. -/
def analyze_exercise_timing (_sessions : List Session) (profile : Option Profile) :
    ExerciseAnalysis :=
  match profile with
  | none => {}
  | some p =>
    let exercise := p.exercise.getD "rarely"
    { exercise_frequency := some exercise
      has_regular_exercise := some (exercise == "daily" || exercise == "3-4-times")
      recommendation := some (if exercise == "rarely" then "Incorporate regular exercise"
        else "Maintain exercise routine") }

/-- Source: `SleepAnalyzer._identify_issues` (the `profile` parameter is unused in
the source too). -/
def identify_issues (analysis : Analysis) (_profile : Option Profile) : List String :=
  let d := analysis.duration_analysis
  let issues : List String :=
    if d.isSet then
      let avg := d.average.getD 0
      if avg < Config.OPTIMAL_SLEEP_DURATION_MIN then
        ["Average sleep duration is too short (" ++ fmt1 avg ++ " hours). Aim for 7-9 hours."]
      else if Config.OPTIMAL_SLEEP_DURATION_MAX < avg then
        ["Average sleep duration is too long (" ++ fmt1 avg ++
          " hours). Consider if you need this much sleep."]
      else []
    else []
  let c := analysis.consistency_analysis
  let issues := if c.overall_consistency.getD 1 < 6/10 then
      issues ++ ["Sleep schedule is inconsistent. Try maintaining the same bedtime and wake time."]
    else issues
  let e := analysis.efficiency_analysis
  let issues := if e.average.getD 100 < 70 then
      issues ++ ["Sleep efficiency is low (" ++ fmt0 (e.average.getD 0) ++
        "%). Focus on improving sleep quality."]
    else issues
  let i := analysis.interruption_analysis
  let issues := if 1/2 < i.interruption_rate.getD 0 then
      issues ++ ["Frequent sleep interruptions detected. Consider optimizing your sleep environment."]
    else issues
  let ca := analysis.caffeine_analysis
  let issues := if ca.potential_impact.getD false then
      issues ++ ["Caffeine intake may be affecting sleep quality. Avoid caffeine after 8 PM."]
    else issues
  let sc := analysis.screen_time_analysis
  let issues := if sc.potential_impact.getD false then
      issues ++ [sc.recommendation.getD "Reduce screen time before bed."]
    else issues
  issues

/-- Source: `SleepAnalyzer._generate_summary`. -/
def generate_summary (analysis : Analysis) : String :=
  let d := analysis.duration_analysis
  let e := analysis.efficiency_analysis
  let c := analysis.consistency_analysis
  let parts : List String :=
    if truthyQ d.average then
      ["Average sleep duration: " ++ fmt1 (d.average.getD 0) ++ " hours"] else []
  let parts := if truthyQ e.average then
      parts ++ ["Average efficiency: " ++ fmt0 (e.average.getD 0) ++ "%"] else parts
  let parts := if truthyQ c.overall_consistency then
      parts ++ ["Schedule consistency: " ++ fmt0 ((c.overall_consistency.getD 0) * 100) ++ "%"]
    else parts
  if parts ≠ [] then String.intercalate ". " parts ++ "." else "Sleep analysis completed."

/-- Source: `SleepAnalyzer.analyze`: the empty-input short-circuit, else all
sub-analyses, then the issue list and summary. -/
def analyze (sessions : List Session) (profile : Option Profile) : Analysis :=
  if sessions = [] then
    { issues := ["No sleep data available"]
      summary := "No sleep sessions found for analysis" }
  else
    let base : Analysis :=
      { duration_analysis := analyze_duration sessions
        consistency_analysis := analyze_consistency sessions
        efficiency_analysis := analyze_efficiency sessions
        interruption_analysis := analyze_interruptions sessions
        caffeine_analysis := analyze_caffeine_timing sessions profile
        screen_time_analysis := analyze_screen_time sessions profile
        exercise_analysis := analyze_exercise_timing sessions profile }
    let withIssues := { base with issues := identify_issues base profile }
    { withIssues with summary := generate_summary withIssues }

/-! ## Scorer (`src/services/scorer.py`)

`analysis : Option Analysis` — `none` models a missing/falsy analysis
argument (Python `None` or `{}`); an analyzer-produced analysis always
contains every sub-analysis key, so each `'…_analysis' in analysis`
membership test is true exactly when `analysis` is `some`. -/

/-- The duration formula applied to the average, shared by both branches
of `_score_duration` (lines 75-87 of the source). -/
def scoreOfMean (avg_duration : ℚ) : ℚ :=
  if Config.OPTIMAL_SLEEP_DURATION_MIN ≤ avg_duration ∧
      avg_duration ≤ Config.OPTIMAL_SLEEP_DURATION_MAX then 100
  else if avg_duration < Config.OPTIMAL_SLEEP_DURATION_MIN then
    max 0 (avg_duration / Config.OPTIMAL_SLEEP_DURATION_MIN * 100)
  else
    let excess := avg_duration - Config.OPTIMAL_SLEEP_DURATION_MAX
    let max_excess := Config.MAX_SLEEP_DURATION - Config.OPTIMAL_SLEEP_DURATION_MAX
    let r := if 0 < max_excess then 1 - excess / max_excess else 0
    max 0 (r * 100)

/-- Source: `SleepScorer._score_duration`. -/
def score_duration (sessions : List Session) (analysis : Option Analysis) : ℚ :=
  match analysis with
  | some a => scoreOfMean (a.duration_analysis.average.getD 0)
  | none =>
    let durations := durationsOf sessions
    if durations = [] then 0 else scoreOfMean (mean durations)

/-- Source: `SleepScorer._score_consistency` (no clamping and no rounding in this
function, unlike the analyzer's). -/
def score_consistency (sessions : List Session) (analysis : Option Analysis) : ℚ :=
  match analysis with
  | some a => (a.consistency_analysis.overall_consistency.getD 0) * 100
  | none =>
    let bedtimes := bedtimesOf sessions
    let waketimes := waketimesOf sessions
    if bedtimes = [] ∨ waketimes = [] then 50
    else
      let bedtime_consistency : ℚ := if 1 < bedtimes.length then
          1 - (((uniqueCount bedtimes : ℕ) : ℚ) - 1) / (bedtimes.length : ℚ) else 1
      let waketime_consistency : ℚ := if 1 < waketimes.length then
          1 - (((uniqueCount waketimes : ℕ) : ℚ) - 1) / (waketimes.length : ℚ) else 1
      ((bedtime_consistency + waketime_consistency) / 2) * 100

/-- Source: `SleepScorer._score_efficiency`: when an analysis dict is supplied,
the lookup `analysis['efficiency_analysis'].get('average', 0)` defaults
to 0; the 50 default applies only in the no-analysis branch. -/
def score_efficiency (sessions : List Session) (analysis : Option Analysis) : ℚ :=
  match analysis with
  | some a => a.efficiency_analysis.average.getD 0
  | none =>
    let efficiency_scores := efficienciesOf sessions
    if efficiency_scores = [] then 50 else mean efficiency_scores

/-- Source: `SleepScorer._score_interruptions` (the computed `interruption_rate`
is unused by the banding, as in the source). -/
def score_interruptions (sessions : List Session) (analysis : Option Analysis) : ℚ :=
  let avg_interruptions : ℚ :=
    match analysis with
    | some a => a.interruption_analysis.average_per_session.getD 0
    | none =>
      let total : ℕ := (sessions.map fun s => (s.interruptions.getD []).length).sum
      if sessions = [] then 0 else (total : ℚ) / (sessions.length : ℚ)
  if avg_interruptions = 0 then 100
  else if avg_interruptions ≤ 1 then 80
  else if avg_interruptions ≤ 2 then 60
  else if avg_interruptions ≤ 3 then 40
  else max 0 (100 - avg_interruptions * 20)

/-- Source: `SleepScorer._calculate_confidence`. -/
def calculate_confidence (sessions : List Session) (_analysis : Option Analysis) : ℚ :=
  if sessions = [] then 0
  else
    let session_count_confidence : ℚ := min 1 ((sessions.length : ℚ) / 7)
    let complete_sessions : ℕ := sessions.countP fun s =>
      truthyQ s.duration_hours && truthyStr s.bedtime && truthyStr s.waketime
    let completeness_confidence : ℚ := (complete_sessions : ℚ) / (sessions.length : ℚ)
    let has_efficiency : ℚ :=
      ((sessions.countP fun s => truthyQ s.efficiency_score : ℕ) : ℚ) / (sessions.length : ℚ)
    let confidence := session_count_confidence * (4/10) +
      completeness_confidence * (4/10) + has_efficiency * (2/10)
    min 1 (max 0 confidence)

/-- The scorer's sub-score breakdown (`round(·, 1)` applied). -/
structure ScoreBreakdown where
  duration_score : ℚ
  consistency_score : ℚ
  efficiency_score : ℚ
  interruption_score : ℚ
deriving DecidableEq

/-- The result of `SleepScorer.calculate_score`:  `sleep_score` is
`round(overall)`, `confidence` is `round(·, 2)`, `breakdown` is `none`
for the empty-session early return (`{}`). -/
structure ScoreResult where
  sleep_score : ℤ
  confidence : ℚ
  breakdown : Option ScoreBreakdown
deriving DecidableEq

/-- Source: `SleepScorer.calculate_score`. -/
def calculate_score (sessions : List Session) (analysis : Option Analysis) : ScoreResult :=
  if sessions = [] then { sleep_score := 0, confidence := 0, breakdown := none }
  else
    let duration_score := score_duration sessions analysis
    let consistency_score := score_consistency sessions analysis
    let efficiency_score := score_efficiency sessions analysis
    let interruption_score := score_interruptions sessions analysis
    let overall_score := duration_score * (3/10) + consistency_score * (25/100) +
      efficiency_score * (3/10) + interruption_score * (15/100)
    let confidence := calculate_confidence sessions analysis
    { sleep_score := roundHE overall_score
      confidence := round2 confidence
      breakdown := some
        { duration_score := round1 duration_score
          consistency_score := round1 consistency_score
          efficiency_score := round1 efficiency_score
          interruption_score := round1 interruption_score } }

/-! ## Rounding of integral values -/

theorem roundHE_intCast (n : ℤ) : roundHE (n : ℚ) = n := by
  unfold roundHE
  rw [Int.floor_intCast, sub_self]
  norm_num

theorem round2_intCast (n : ℤ) : round2 (n : ℚ) = n := by
  unfold round2
  rw [show (100 : ℚ) * (n : ℚ) = ((100 * n : ℤ) : ℚ) by push_cast; ring, roundHE_intCast]
  push_cast
  ring

theorem round1_intCast (n : ℤ) : round1 (n : ℚ) = n := by
  unfold round1
  rw [show (10 : ℚ) * (n : ℚ) = ((10 * n : ℤ) : ℚ) by push_cast; ring, roundHE_intCast]
  push_cast
  ring

/-! ## Scenario A (claim C1): 7 uniform 8-hour sessions -/

/-- One of the seven identical Scenario A sessions: 8 h duration, empty
interruption list, shared bedtime/waketime, no efficiency score. -/
def scenarioSession : Session :=
  { bedtime := some "23:00", waketime := some "07:00",
    duration_hours := some 8, interruptions := some [] }

def scenarioSessions : List Session := List.replicate 7 scenarioSession

/-- The analysis the pipeline's reasoning node computes for Scenario A
(fresh user: no LTM enhancement applies). -/
def scenarioAnalysis : Analysis := analyze scenarioSessions none

/-- The scorer result as the pipeline invokes it for Scenario A. -/
def scenarioScore : ScoreResult := calculate_score scenarioSessions (some scenarioAnalysis)

theorem roundHE_eq_intCast (q : ℚ) (n : ℤ) (h : q = (n : ℚ)) : roundHE q = n := by
  rw [h, roundHE_intCast]

theorem round2_eq_div (q : ℚ) (n : ℤ) (h : 100 * q = (n : ℚ)) :
    round2 q = (n : ℚ) / 100 := by
  unfold round2
  rw [h, roundHE_intCast]

theorem round1_eq_div (q : ℚ) (n : ℤ) (h : 10 * q = (n : ℚ)) :
    round1 q = (n : ℚ) / 10 := by
  unfold round1
  rw [h, roundHE_intCast]

theorem scenario_durations : durationsOf scenarioSessions = List.replicate 7 8 := by
  norm_num [durationsOf, scenarioSessions, scenarioSession, List.replicate,
    List.filterMap_cons]

theorem scenario_duration_analysis :
    analyze_duration scenarioSessions =
      { average := some 8, minimum := some 8, maximum := some 8,
        optimal_count := some 7, too_short_count := some 0, too_long_count := some 0,
        total_sessions := some 7, is_optimal := some true } := by
  unfold analyze_duration
  rw [scenario_durations]
  have h8 : round2 8 = 8 := by
    rw [round2_eq_div 8 800 (by norm_num)]; norm_num
  norm_num [mean, listMin, listMax, List.replicate, Config.OPTIMAL_SLEEP_DURATION_MIN,
    Config.OPTIMAL_SLEEP_DURATION_MAX, List.countP, List.countP.go, h8,
    show ((8 : ℚ) + (8 + (8 + (8 + (8 + (8 + (8 + 0))))))) / 7 = 8 by norm_num]
  intro h
  simp at h

theorem scenario_bedtimes : bedtimesOf scenarioSessions = List.replicate 7 "23:00" := by
  simp [bedtimesOf, scenarioSessions, scenarioSession, List.replicate, List.filterMap_cons]

theorem scenario_waketimes : waketimesOf scenarioSessions = List.replicate 7 "07:00" := by
  simp [waketimesOf, scenarioSessions, scenarioSession, List.replicate, List.filterMap_cons]

theorem scenario_consistency_analysis :
    analyze_consistency scenarioSessions =
      { bedtime_consistency := some 1, waketime_consistency := some 1,
        overall_consistency := some 1, unique_bedtimes := some 1,
        unique_waketimes := some 1 } := by
  have h1 : round2 1 = 1 := by rw [round2_eq_div 1 100 (by norm_num)]; norm_num
  have hu : uniqueCount ["23:00", "23:00", "23:00", "23:00", "23:00", "23:00", "23:00"] = 1 := by
    decide
  have hw : uniqueCount ["07:00", "07:00", "07:00", "07:00", "07:00", "07:00", "07:00"] = 1 := by
    decide
  have hbne : (["23:00", "23:00", "23:00", "23:00", "23:00", "23:00", "23:00"] : List String) ≠ [] := by
    simp
  have hwne : (["07:00", "07:00", "07:00", "07:00", "07:00", "07:00", "07:00"] : List String) ≠ [] := by
    simp
  unfold analyze_consistency
  rw [scenario_bedtimes, scenario_waketimes]
  simp only [List.replicate]
  norm_num [hu, hw, h1, max_def, hbne, hwne]

theorem scenario_efficiency_analysis :
    analyze_efficiency scenarioSessions = {} := by
  have h : efficienciesOf scenarioSessions = [] := by
    simp [efficienciesOf, scenarioSessions, scenarioSession, List.replicate,
      List.filterMap_cons]
  unfold analyze_efficiency
  rw [h]
  simp

theorem scenario_interruption_analysis :
    analyze_interruptions scenarioSessions =
      { total_interruptions := some 0, sessions_with_interruptions := some 0,
        average_per_session := some 0, interruption_rate := some 0 } := by
  unfold analyze_interruptions
  have h0 : round2 0 = 0 := by rw [round2_eq_div 0 0 (by norm_num)]; norm_num
  norm_num [scenarioSessions, scenarioSession, List.replicate, List.countP,
    List.countP.go, h0]

theorem scenarioAnalysis_projections :
    scenarioAnalysis.duration_analysis = analyze_duration scenarioSessions ∧
    scenarioAnalysis.consistency_analysis = analyze_consistency scenarioSessions ∧
    scenarioAnalysis.efficiency_analysis = analyze_efficiency scenarioSessions ∧
    scenarioAnalysis.interruption_analysis = analyze_interruptions scenarioSessions := by
  have hne : scenarioSessions ≠ [] := by simp [scenarioSessions]
  unfold scenarioAnalysis analyze
  simp [hne]

theorem scenario_confidence :
    calculate_confidence scenarioSessions (some scenarioAnalysis) = 4/5 := by
  have hne : scenarioSessions ≠ [] := by simp [scenarioSessions]
  have hcomplete : (scenarioSessions.countP fun s =>
      truthyQ s.duration_hours && truthyStr s.bedtime && truthyStr s.waketime) = 7 := by
    decide
  have heffc : (scenarioSessions.countP fun s => truthyQ s.efficiency_score) = 0 := by
    decide
  have hlen : scenarioSessions.length = 7 := by decide
  unfold calculate_confidence
  rw [if_neg hne]
  simp only [hcomplete, heffc, hlen]
  norm_num [min_def, max_def]

theorem scenarioScore_eval :
    scenarioScore =
      { sleep_score := 70, confidence := 4/5,
        breakdown := some
          { duration_score := 100, consistency_score := 100,
            efficiency_score := 0, interruption_score := 100 } } := by
  obtain ⟨hd, hc, he, hi⟩ := scenarioAnalysis_projections
  have hne : scenarioSessions ≠ [] := by simp [scenarioSessions]
  have hdur : score_duration scenarioSessions (some scenarioAnalysis) = 100 := by
    rw [show score_duration scenarioSessions (some scenarioAnalysis) =
        scoreOfMean (scenarioAnalysis.duration_analysis.average.getD 0) from rfl,
      hd, scenario_duration_analysis]
    norm_num [scoreOfMean, Config.OPTIMAL_SLEEP_DURATION_MIN,
      Config.OPTIMAL_SLEEP_DURATION_MAX]
  have hcon : score_consistency scenarioSessions (some scenarioAnalysis) = 100 := by
    rw [show score_consistency scenarioSessions (some scenarioAnalysis) =
        (scenarioAnalysis.consistency_analysis.overall_consistency.getD 0) * 100 from rfl,
      hc, scenario_consistency_analysis]
    norm_num
  have heff : score_efficiency scenarioSessions (some scenarioAnalysis) = 0 := by
    rw [show score_efficiency scenarioSessions (some scenarioAnalysis) =
        scenarioAnalysis.efficiency_analysis.average.getD 0 from rfl,
      he, scenario_efficiency_analysis]
    rfl
  have hint : score_interruptions scenarioSessions (some scenarioAnalysis) = 100 := by
    have havg : scenarioAnalysis.interruption_analysis.average_per_session.getD 0 = 0 := by
      rw [hi, scenario_interruption_analysis]
      rfl
    unfold score_interruptions
    simp only [havg]
    norm_num
  have h70 : roundHE ((70 : ℚ)) = 70 := roundHE_eq_intCast _ 70 (by norm_num)
  have hconf : round2 (4/5) = 4/5 := by rw [round2_eq_div (4/5) 80 (by norm_num)]; norm_num
  have hb1 : round1 (100 : ℚ) = 100 := by rw [round1_eq_div 100 1000 (by norm_num)]; norm_num
  have hb0 : round1 (0 : ℚ) = 0 := by rw [round1_eq_div 0 0 (by norm_num)]; norm_num
  unfold scenarioScore calculate_score
  rw [if_neg hne]
  norm_num [hdur, hcon, heff, hint, scenario_confidence, h70, hconf, hb1, hb0]

/-- Claim C1 counterexample: for the exact Scenario A input — 7 sessions of 8 h,
empty interruption lists, identical bedtime/waketime, no efficiency
scores — the Scorer invoked with the Analyzer's analysis does not give an
efficiency sub-score of 50 nor an overall sleep score of 85. -/
theorem scenario_a_claim_false :
    ¬ (scenarioScore.sleep_score = 85 ∧
       scenarioScore.breakdown.map ScoreBreakdown.efficiency_score = some 50) := by
  rw [scenarioScore_eval]
  intro h
  exact absurd h.1 (by norm_num)

/-- Claim C1 (amended): for Scenario A the Scorer, invoked as the pipeline
invokes it with the Analyzer's analysis passed in, yields duration 100,
consistency 100, interruption 100, but efficiency sub-score 0 — the
analyzer emits an *empty* efficiency analysis and the scorer's lookup
`analysis['efficiency_analysis'].get('average', 0)` defaults to 0, not to
50 — so the overall score is 0.3×100 + 0.25×100 + 0.3×0 + 0.15×100 = 70
(and the confidence is 0.8). -/
theorem scenario_a_amended :
    scenarioScore.breakdown = some
      { duration_score := 100, consistency_score := 100,
        efficiency_score := 0, interruption_score := 100 } ∧
    scenarioScore.sleep_score = 70 ∧ scenarioScore.confidence = 4/5 := by
  rw [scenarioScore_eval]
  exact ⟨rfl, rfl, rfl⟩

/-! ## Claim C5: confidence bounds -/

theorem roundHE_le_hundred (q : ℚ) (h : q ≤ 100) : roundHE q ≤ 100 := by
  have hfl : ⌊q⌋ ≤ 100 := by
    have : ⌊q⌋ ≤ ⌊(100 : ℚ)⌋ := Int.floor_le_floor h
    simpa using this
  by_cases h99 : ⌊q⌋ ≤ 99
  · exact le_trans (roundHE_le_floor_add_one q) (by omega)
  · have h100 : ⌊q⌋ = 100 := by omega
    have hlt : q - (⌊q⌋ : ℚ) < 1/2 := by
      rw [h100]
      push_cast
      linarith
    unfold roundHE
    rw [if_pos hlt, h100]

theorem calculate_confidence_nonempty_bounds (sessions : List Session)
    (analysis : Option Analysis) (h : sessions ≠ []) :
    2/35 ≤ calculate_confidence sessions analysis ∧
    calculate_confidence sessions analysis ≤ 1 := by
  unfold calculate_confidence
  rw [if_neg h]
  have hlen : 1 ≤ sessions.length := List.length_pos.mpr h
  have hlenQ : (1 : ℚ) ≤ (sessions.length : ℚ) := by exact_mod_cast hlen
  have hscc : (1 : ℚ)/7 ≤ min 1 ((sessions.length : ℚ) / 7) := by
    apply le_min (by norm_num)
    linarith
  have hcomp : (0 : ℚ) ≤ ((sessions.countP fun s =>
      truthyQ s.duration_hours && truthyStr s.bedtime && truthyStr s.waketime : ℕ) : ℚ) /
      (sessions.length : ℚ) := by positivity
  have heffn : (0 : ℚ) ≤ ((sessions.countP fun s => truthyQ s.efficiency_score : ℕ) : ℚ) /
      (sessions.length : ℚ) := by positivity
  constructor
  · apply le_min (by norm_num)
    apply le_max_of_le_right
    linarith
  · exact min_le_left _ _

/-- Claim C5: the scorer's returned confidence always lies in `[0, 1]`, and it
is `0` exactly when the session list is empty. -/
theorem calculate_score_confidence_bounds (sessions : List Session)
    (analysis : Option Analysis) :
    0 ≤ (calculate_score sessions analysis).confidence ∧
    (calculate_score sessions analysis).confidence ≤ 1 ∧
    ((calculate_score sessions analysis).confidence = 0 ↔ sessions = []) := by
  by_cases h : sessions = []
  · subst h
    simp [calculate_score]
  · have hproj : (calculate_score sessions analysis).confidence =
        round2 (calculate_confidence sessions analysis) := by
      unfold calculate_score
      rw [if_neg h]
    obtain ⟨hlo, hhi⟩ := calculate_confidence_nonempty_bounds sessions analysis h
    set c := calculate_confidence sessions analysis with hc
    have h5 : (5 : ℤ) ≤ roundHE (100 * c) := by
      refine le_trans ?_ (floor_le_roundHE _)
      rw [Int.le_floor]
      push_cast
      linarith
    have hup : roundHE (100 * c) ≤ 100 := roundHE_le_hundred _ (by linarith)
    have h5Q : (5 : ℚ) ≤ (roundHE (100 * c) : ℚ) := by exact_mod_cast h5
    have hupQ : ((roundHE (100 * c) : ℤ) : ℚ) ≤ 100 := by exact_mod_cast hup
    rw [hproj]
    unfold round2
    refine ⟨by linarith, by linarith, ?_⟩
    constructor
    · intro h0
      exfalso
      have : (roundHE (100 * c) : ℚ) = 0 := by
        field_simp at h0
        exact_mod_cast h0
      linarith
    · intro h0
      exact absurd h0 h

theorem calculate_score_confidence_bounds_witness :
    0 ≤ (calculate_score [wSessB] none).confidence ∧
    (calculate_score [wSessB] none).confidence ≤ 1 ∧
    ((calculate_score [wSessB] none).confidence = 0 ↔ ([wSessB] : List Session) = []) :=
  calculate_score_confidence_bounds [wSessB] none

/-! ## Claim C6: the duration sub-score as a function of the mean -/

theorem scoreOfMean_low (x : ℚ) (h0 : 0 ≤ x) (h7 : x ≤ 7) :
    scoreOfMean x = x / 7 * 100 := by
  unfold scoreOfMean Config.OPTIMAL_SLEEP_DURATION_MIN Config.OPTIMAL_SLEEP_DURATION_MAX
  by_cases hband : 7 ≤ x
  · have hx : x = 7 := le_antisymm h7 hband
    rw [if_pos ⟨hband, by linarith⟩, hx]
    norm_num
  · rw [if_neg (by intro hh; exact hband hh.1), if_pos (by linarith)]
    exact max_eq_right (by positivity)

theorem scoreOfMean_high (x : ℚ) (h9 : 9 ≤ x) (h16 : x ≤ 16) :
    scoreOfMean x = (1 - (x - 9) / 7) * 100 := by
  unfold scoreOfMean Config.OPTIMAL_SLEEP_DURATION_MIN Config.OPTIMAL_SLEEP_DURATION_MAX
    Config.MAX_SLEEP_DURATION
  by_cases hband : x ≤ 9
  · have hx : x = 9 := le_antisymm hband h9
    rw [if_pos ⟨by linarith, hband⟩, hx]
    norm_num
  · push_neg at hband
    rw [if_neg (by intro hh; exact absurd hh.2 (not_le.mpr hband)),
      if_neg (by linarith)]
    dsimp only
    rw [if_pos (by norm_num : (0 : ℚ) < 16 - 9),
      max_eq_right (by nlinarith : (0 : ℚ) ≤ (1 - (x - 9) / (16 - 9)) * 100)]
    norm_num

/-- Claim C6: the duration sub-score, as a function of the mean duration, is
exactly 100 on `[7, 9]`, is 0 at 0, is non-decreasing on `[0, 7]` (the
ramp `mean/7 × 100`), and is non-increasing on `[9, 16]` (the ramp from
100 at 9 down to 0 at `MAX_SLEEP_DURATION = 16`). -/
theorem duration_score_shape :
    (∀ m : ℚ, 7 ≤ m → m ≤ 9 → scoreOfMean m = 100) ∧
    scoreOfMean 0 = 0 ∧
    (∀ a b : ℚ, 0 ≤ a → a ≤ b → b ≤ 7 → scoreOfMean a ≤ scoreOfMean b) ∧
    (∀ a b : ℚ, 9 ≤ a → a ≤ b → b ≤ 16 → scoreOfMean b ≤ scoreOfMean a) := by
  refine ⟨?_, ?_, ?_, ?_⟩
  · intro m h7 h9
    unfold scoreOfMean Config.OPTIMAL_SLEEP_DURATION_MIN Config.OPTIMAL_SLEEP_DURATION_MAX
    rw [if_pos ⟨h7, h9⟩]
  · rw [scoreOfMean_low 0 le_rfl (by norm_num)]
    norm_num
  · intro a b ha hab hb
    rw [scoreOfMean_low a ha (le_trans hab hb), scoreOfMean_low b (le_trans ha hab) hb]
    linarith
  · intro a b ha hab hb
    rw [scoreOfMean_high a ha (le_trans hab hb), scoreOfMean_high b (le_trans ha hab) hb]
    linarith

theorem duration_score_shape_witness :
    scoreOfMean 8 = 100 ∧ scoreOfMean 0 = 0 ∧
    scoreOfMean 3 ≤ scoreOfMean 5 ∧ scoreOfMean 14 ≤ scoreOfMean 12 :=
  ⟨duration_score_shape.1 8 (by norm_num) (by norm_num),
   duration_score_shape.2.1,
   duration_score_shape.2.2.1 3 5 (by norm_num) (by norm_num) (by norm_num),
   duration_score_shape.2.2.2 12 14 (by norm_num) (by norm_num) (by norm_num)⟩

/-! ## Recommender data types (`src/services/recommender.py`) -/

structure SleepWindow where
  recommended_bedtime : String
  recommended_waketime : String
  target_duration_hours : ℚ
  rationale : String
deriving DecidableEq

structure CaffeineCutoff where
  cutoff_time : String
  recommendation : String
  current_intake : Option String := none
deriving DecidableEq

structure WeeklyPlan where
  week_goal : String
  daily_bedtime : String
  daily_waketime : String
  weekly_tasks : List String
deriving DecidableEq

/-- A value of the recommendations dict. -/
inductive RecVal where
  | window (w : SleepWindow)
  | caffeine (c : CaffeineCutoff)
  | strs (l : List String)
  | plan (p : WeeklyPlan)
deriving DecidableEq

/-- The recommendations dict (open key set: the error path of the
recommendation node produces the empty dict). -/
abbrev RecsDict := List (String × RecVal)

/-- Source: `recommendations.get('personalized_tips', [])`. -/
def getTips (r : RecsDict) : List String :=
  match r.lookup "personalized_tips" with
  | some (.strs l) => l
  | _ => []

/-! ## Time formatting helpers -/

/-- Source: `f"{n:02d}"` for the hour/minute values that occur (0-23 / 0-59). -/
def pad2 (n : ℤ) : String :=
  if 0 ≤ n ∧ n < 10 then "0" ++ toString n else toString n

/-- Minutes-into-day of a datetime shifted by a rational number of
minutes (`datetime` subtraction then `.time()`). -/
def qmod1440 (q : ℚ) : ℚ := q - 1440 * ⌊q / 1440⌋

/-- Source: `strftime('%H:%M')` of a time lying `m` minutes after midnight. -/
def timeStrOfMinutes (m : ℚ) : String :=
  let totalMin : ℤ := ⌊m⌋
  pad2 (totalMin / 60) ++ ":" ++ pad2 (totalMin % 60)

/-- Source: `pat in s.lower()`. -/
def containsLower (s pat : String) : Bool := 2 ≤ (s.toLower.splitOn pat).length

/-! ## Recommender functions -/

/-- Source: `SleepRecommender._calculate_ideal_sleep_window`. -/
def calculate_ideal_sleep_window (analysis : Option Analysis) (profile : Option Profile) :
    SleepWindow :=
  let work_schedule := (profile.bind (·.work_schedule)).getD "9am-5pm"
  let age := (profile.bind (·.age)).getD 30
  let avg0 : ℚ := (profile.bind (·.avg_sleep_duration)).getD 8
  let duration_analysis := (analysis.map (·.duration_analysis)).getD {}
  let avg_sleep_duration :=
    if duration_analysis.isSet && truthyQ duration_analysis.average then
      duration_analysis.average.getD 0
    else avg0
  let wm : ℤ × ℤ :=
    if work_schedule = "9am-5pm" then (6, 30)
    else if work_schedule = "night-shift" then (16, 0)
    else if work_schedule = "flexible" then (7, 0)
    else (6, 0)
  let wake_hour := if age < 25 then wm.1 + 1 else if 50 < age then wm.1 - 1 else wm.1
  let wakeMinutes : ℚ := ((wake_hour * 60 + wm.2 : ℤ) : ℚ)
  let bedMinutes : ℚ := qmod1440 (wakeMinutes - avg_sleep_duration * 60)
  { recommended_bedtime := timeStrOfMinutes bedMinutes
    recommended_waketime := timeStrOfMinutes wakeMinutes
    target_duration_hours := round1 avg_sleep_duration
    rationale := "Based on " ++ work_schedule ++ " schedule and " ++ toString age ++
      " years old" }

/-- Source: `SleepRecommender._calculate_caffeine_cutoff`. -/
def calculate_caffeine_cutoff (profile : Option Profile) : CaffeineCutoff :=
  match profile with
  | none =>
    { cutoff_time := "14:00"
      recommendation := "Avoid caffeine after 2 PM for optimal sleep" }
  | some p =>
    let caffeine_intake := p.caffeine_intake.getD "none"
    let ideal_window := calculate_ideal_sleep_window none (some p)
    let bedtime_str := ideal_window.recommended_bedtime
    let cutoff_time :=
      match (bedtime_str.splitOn ":").head? >>= String.toInt? with
      | some bedtime_hour =>
        let ch := bedtime_hour - Config.CAFFEINE_CUTOFF_HOURS
        let ch := if ch < 0 then ch + 24 else ch
        pad2 ch ++ ":00"
      | none => "14:00"
    let recommendation :=
      if caffeine_intake = "none" then "Great job avoiding caffeine! Continue this habit."
      else if caffeine_intake = "low" then
        "Avoid caffeine after " ++ cutoff_time ++ " to improve sleep quality."
      else if caffeine_intake = "medium" then
        "Limit caffeine intake and avoid after " ++ cutoff_time ++
          ". Consider reducing to 1-2 cups per day."
      else "Reduce caffeine intake significantly. Stop consuming caffeine after " ++
        cutoff_time ++ "."
    { cutoff_time := cutoff_time, recommendation := recommendation,
      current_intake := some caffeine_intake }

/-- Source: `SleepRecommender._generate_light_recommendations`. -/
def generate_light_recommendations (profile : Option Profile) : List String :=
  let screen_time : ℚ := (profile.bind (·.screen_time)).getD 0
  let recs :=
    if Config.SCREEN_TIME_WARNING_HOURS < screen_time then
      ["Reduce screen time before bed (currently " ++ fmtQ screen_time ++
        " hours). Use blue light filters or reading mode.",
       "Dim lights 1-2 hours before bedtime to signal your body for sleep."]
    else ["Maintain low light exposure before bed. Consider using dimmable lights."]
  recs ++ ["Get natural sunlight exposure in the morning to regulate circadian rhythm.",
    "Use blackout curtains or eye mask if your bedroom is not dark enough."]

/-- Source: `SleepRecommender._generate_environment_recommendations`. -/
def generate_environment_recommendations (analysis : Option Analysis) : List String :=
  let interruptions := (analysis.map (·.interruption_analysis)).getD {}
  let recs :=
    if 3/10 < interruptions.interruption_rate.getD 0 then
      ["Keep bedroom temperature between 65-68°F (18-20°C) for optimal sleep.",
       "Use white noise machine or earplugs to block disruptive sounds.",
       "Ensure your mattress and pillows are comfortable and supportive.",
       "Remove electronic devices from bedroom or use airplane mode."]
    else ["Your sleep environment seems good. Maintain current conditions."]
  recs ++ ["Keep bedroom dark, quiet, and cool.",
    "Reserve bedroom only for sleep and intimacy (no work or screens)."]

/-- Source: `SleepRecommender._generate_wind_down_routine`. -/
def generate_wind_down_routine (profile : Option Profile) (analysis : Option Analysis) :
    List String :=
  let stress_level : ℤ := (profile.bind (·.stress_level)).getD 3
  let recs := ["Start wind-down routine 1 hour before bedtime."]
  let recs :=
    if 4 ≤ stress_level then
      recs ++
        ["Practice relaxation techniques: meditation, deep breathing, or progressive muscle relaxation.",
         "Try journaling to clear your mind before bed."]
    else recs ++
      ["Maintain a consistent pre-sleep routine (reading, light stretching, or calming music)."]
  let recs := recs ++
    ["Take a warm bath or shower 1-2 hours before bed (body temperature drop promotes sleep).",
     "Avoid stimulating activities, work, or intense exercise close to bedtime."]
  let consistency := (analysis.map (·.consistency_analysis)).getD {}
  if consistency.overall_consistency.getD 1 < 7/10 then
    recs ++ ["Establish a fixed bedtime routine to signal your body it\x27s time to sleep."]
  else recs

/-- Source: `SleepRecommender._generate_weekly_plan`. -/
def generate_weekly_plan (analysis : Option Analysis) (profile : Option Profile) :
    WeeklyPlan :=
  let ideal_window := calculate_ideal_sleep_window analysis profile
  let issues := (analysis.map (·.issues)).getD []
  let tasks : List String :=
    (if issues.any (fun i => containsLower i "duration") then
      ["Gradually adjust sleep duration to reach 7-9 hours"] else []) ++
    (if issues.any (fun i => containsLower i "consistent") then
      ["Maintain same bedtime and wake time every day, including weekends"] else []) ++
    (if issues.any (fun i => containsLower i "caffeine") then
      ["Reduce caffeine intake and observe sleep quality improvements"] else []) ++
    (if issues.any (fun i => containsLower i "screen") then
      ["Reduce screen time 2 hours before bed"] else [])
  let tasks := if tasks = [] then
      ["Maintain current sleep habits and track improvements"] else tasks
  { week_goal := "Establish consistent sleep schedule"
    daily_bedtime := ideal_window.recommended_bedtime
    daily_waketime := ideal_window.recommended_waketime
    weekly_tasks := tasks }

/-- Source: `SleepRecommender._generate_personalized_tips`. -/
def generate_personalized_tips (analysis : Option Analysis) (profile : Option Profile)
    (trends : List (String × ℚ)) : List String :=
  let issues := (analysis.map (·.issues)).getD []
  let tips := issues.take 3
  let tips :=
    match profile with
    | some p =>
      let exercise := p.exercise.getD "rarely"
      if exercise = "rarely" then
        tips ++ ["Incorporate regular exercise into your routine (3-4 times per week) for better sleep."]
      else if exercise = "daily" then
        tips ++ ["Great job with daily exercise! Avoid intense workouts within 3 hours of bedtime."]
      else tips
    | none => tips
  let tips :=
    if trends ≠ [] then
      let avg_duration := (trends.lookup "avg_duration").getD 0
      if avg_duration ≠ 0 ∧ avg_duration < Config.OPTIMAL_SLEEP_DURATION_MIN then
        tips ++ ["Your average sleep duration is " ++ fmt1 avg_duration ++
          " hours. Gradually increase to 7-9 hours for optimal rest."]
      else tips
    else tips
  let tips :=
    if tips.length < 3 then
      tips ++ ["Maintain a consistent sleep schedule, even on weekends.",
        "Create a relaxing bedtime routine to signal your body for sleep.",
        "Avoid large meals and alcohol close to bedtime."]
    else tips
  tips.take 6

/-- Source: `SleepRecommender.generate_recommendations`: the seven-key dict, in
insertion order. -/
def generate_recommendations (analysis : Option Analysis) (profile : Option Profile)
    (trends : List (String × ℚ)) : RecsDict :=
  [("ideal_sleep_window", .window (calculate_ideal_sleep_window analysis profile)),
   ("caffeine_cutoff", .caffeine (calculate_caffeine_cutoff profile)),
   ("light_exposure_management", .strs (generate_light_recommendations profile)),
   ("bedroom_environment", .strs (generate_environment_recommendations analysis)),
   ("wind_down_routine", .strs (generate_wind_down_routine profile analysis)),
   ("weekly_sleep_plan", .plan (generate_weekly_plan analysis profile)),
   ("personalized_tips", .strs (generate_personalized_tips analysis profile trends))]

/-! ## Long-Term Memory (`src/memory/ltm.py`) -/

/-- The LTM record for one user.  Defaults model the `.get(k, default)`
fallbacks applied by every reader. -/
structure LtmRecord where
  trends : List (String × ℚ) := []
  patterns : List Pattern := []
  preferences : List (String × PrefVal) := []
  recommendations : Option RecsDict := none
  sleep_score : Option ℤ := none
  confidence : Option ℚ := none
  personalized_tips : Option (List String) := none
  issues : Option (List String) := none
  last_updated : Option ℤ := none
  total_sessions_analyzed : Option ℤ := none
deriving DecidableEq

/-- Source: `LongTermMemory._calculate_trends`. -/
def calculate_trends (sessions : List Session) : List (String × ℚ) :=
  if sessions = [] then []
  else
    let durations := durationsOf sessions
    let efficiency_scores := efficienciesOf sessions
    let morning_moods := moodsOf sessions
    let trends : List (String × ℚ) :=
      if durations ≠ [] then
        [("avg_duration", mean durations),
         ("min_duration", listMin durations),
         ("max_duration", listMax durations),
         ("duration_consistency",
          if 0 < listMax durations then
            1 - (listMax durations - listMin durations) / listMax durations else 0)]
      else []
    let trends :=
      if efficiency_scores ≠ [] then
        trends ++ [("avg_efficiency", mean efficiency_scores),
          ("min_efficiency", listMin efficiency_scores),
          ("max_efficiency", listMax efficiency_scores)]
      else trends
    let trends :=
      if morning_moods ≠ [] then trends ++ [("avg_morning_mood", mean morning_moods)]
      else trends
    if 7 ≤ sessions.length then
      let durations_7 := durationsOf (sessions.take 7)
      if durations_7 ≠ [] then trends ++ [("weekly_avg_duration", mean durations_7)]
      else trends
    else trends

/-- Source: `LongTermMemory._identify_patterns`. -/
def identify_patterns (sessions : List Session) : List Pattern :=
  if sessions.length < 3 then []
  else
    let bedtimes := bedtimesOf sessions
    let patterns : List Pattern :=
      if bedtimes ≠ [] ∧ uniqueCount bedtimes ≤ 2 then
        [{ type := "consistent_bedtime", description := "Maintains consistent bedtime",
           confidence := 8/10 }]
      else []
    if 7 ≤ sessions.length then
      patterns ++
        [{ type := "sufficient_data",
           description := "Has sufficient data for pattern analysis",
           confidence := 7/10 }]
    else patterns

/-- Source: `Counter(xs).most_common(1)[0][0]`: the most frequent value, ties
broken by first encounter. -/
def mostCommon (xs : List String) : Option String :=
  (firstOccs xs).foldl
    (fun best v =>
      match best with
      | none => some v
      | some b => if xs.count b < xs.count v then some v else best)
    none

/-- Source: `LongTermMemory._extract_preferences`: start from a copy of the
existing preference map, then set `preferred_duration` /
`preferred_bedtime` when computable from the sessions. -/
def extract_preferences (sessions : List Session)
    (existing : List (String × PrefVal)) : List (String × PrefVal) :=
  let preferences := existing
  let durations := durationsOf sessions
  let preferences :=
    if durations ≠ [] then
      dictInsert "preferred_duration" (.num (round1 (mean durations))) preferences
    else preferences
  let bedtimes := bedtimesOf sessions
  if bedtimes ≠ [] then
    match mostCommon bedtimes with
    | some b => dictInsert "preferred_bedtime" (.str b) preferences
    | none => preferences
  else preferences

/-- Source: `LongTermMemory.update_trends` with the storage read/write
abstracted: `existing_ltm` is the stored record (`None` when absent), the
result is the record written back. -/
def update_trends (now : ℤ) (existing_ltm : Option LtmRecord)
    (sessions : List Session) : LtmRecord :=
  let e := existing_ltm.getD {}
  let trends := calculate_trends sessions
  let existing_trends := dictUpdate e.trends trends
  let patterns := identify_patterns sessions
  let preferences := extract_preferences sessions e.preferences
  { e with
    trends := existing_trends
    patterns := patterns
    preferences := preferences
    last_updated := some now
    total_sessions_analyzed := some ((e.total_sessions_analyzed.getD 0) + sessions.length) }

/-- Source: `LongTermMemory.update_recommendations` (the caller always passes an
`issues` list, so the `issues is not None` guard is modelled by the
`Option`). -/
def update_recommendations (now : ℤ) (existing_ltm : Option LtmRecord)
    (recommendations : RecsDict) (sleep_score : ℤ) (confidence : ℚ)
    (personalized_tips : List String) (issues : Option (List String)) : LtmRecord :=
  let e := existing_ltm.getD {}
  let e := { e with
    recommendations := some recommendations
    sleep_score := some sleep_score
    confidence := some confidence
    personalized_tips := some personalized_tips }
  let e := match issues with
    | some is => { e with issues := some is }
    | none => e
  let e := { e with last_updated := some now }
  let newTrends :=
    dictInsert "confidence" confidence
      (dictInsert "avg_sleep_score" (sleep_score : ℚ) e.trends)
  { e with trends := newTrends }

/-! ### Claim C4: LTM preference merge -/

/-- Claim C4: the LTM trend update recomputes only `preferred_duration` and
`preferred_bedtime`; every other key of the stored preference map keeps
its old value — preferences are merged, never replaced.  (Run twice with
different session sets, the second update therefore preserves all keys it
does not recompute.) -/
theorem update_trends_preserves_other_preferences (now : ℤ) (e : LtmRecord)
    (sessions : List Session) (k : String)
    (hk1 : k ≠ "preferred_duration") (hk2 : k ≠ "preferred_bedtime") :
    ((update_trends now (some e) sessions).preferences).lookup k =
      e.preferences.lookup k := by
  have h1 : ∀ (v : PrefVal) (m : List (String × PrefVal)),
      (dictInsert "preferred_duration" v m).lookup k = m.lookup k :=
    fun v m => lookup_dictInsert_ne _ _ _ _ hk1
  have h2 : ∀ (v : PrefVal) (m : List (String × PrefVal)),
      (dictInsert "preferred_bedtime" v m).lookup k = m.lookup k :=
    fun v m => lookup_dictInsert_ne _ _ _ _ hk2
  unfold update_trends extract_preferences
  dsimp only
  split_ifs <;>
    first
      | rfl
      | (rcases hmc : mostCommon (bedtimesOf sessions) with _ | b <;>
          simp [h1, h2])

theorem update_trends_preserves_other_preferences_witness :
    ((update_trends 0 (some { preferences := [("wake_alarm", .str "on")] })
        [wSessB]).preferences).lookup "wake_alarm" = some (.str "on") := by
  rw [update_trends_preserves_other_preferences 0
    { preferences := [("wake_alarm", .str "on")] } [wSessB] "wake_alarm"
    (by decide) (by decide)]
  rfl

/-! ## Task envelope and orchestrator state (`src/agent/state.py`,
`src/agent/workflow.py`) -/

structure Payload where
  sleep_sessions : Option (List Session) := none
  profile : Option Profile := none
deriving DecidableEq

structure TaskRequest where
  task_id : Option String := none
  user_id : Option String := none
  payload : Option Payload := none
deriving DecidableEq

/-- The formatted result dict (`recommendations` may be the initial
`None`). -/
structure ResultPayload where
  summary : String
  issues : List String
  recommendations : Option RecsDict
  sleep_score : ℤ
  confidence : ℚ
  personalized_tips : List String
deriving DecidableEq

/-- The summary dict the fetch node stores under `state['memory']`. -/
structure MemorySummary where
  stm_count : ℕ
  payload_count : ℕ
  ltm_available : Bool
  ltm_trends : List (String × ℚ)
  ltm_patterns : List Pattern
  ltm_preferences : List (String × PrefVal)
  total_sessions : ℕ
deriving DecidableEq

/-- The shared mutable `AgentState` record, with the initial values
`process_task` assigns. -/
structure AgentState where
  task_id : String
  user_id : String
  payload : Payload
  memory : Option MemorySummary := none
  stm_sessions : Option (List Session) := none
  ltm_data : Option LtmRecord := none
  analysis : Option Analysis := none
  sleep_score : ℤ := 0
  confidence : ℚ := 0
  recommendations : Option RecsDict := none
  personalized_tips : List String := []
  result : Option ResultPayload := none
  summary : String := ""
  issues : List String := []
  errors : List String := []
  status : String := "processing"
deriving DecidableEq

/-! ## Validators (`src/utils/validators.py`)

The Python `float()`/`int()` conversion failures are unrepresentable here
(fields are typed); every other check is mirrored. -/

/-- The per-session structural checks inside `validate_task_request`
(first failure wins, with its index). -/
def firstStructuralError : List Session → ℕ → Option String
  | [], _ => none
  | s :: rest, i =>
    if s.bedtime.isNone then
      some ("sleep_sessions[" ++ toString i ++ "] missing required field: bedtime")
    else if s.waketime.isNone then
      some ("sleep_sessions[" ++ toString i ++ "] missing required field: waketime")
    else if s.duration_hours.isNone then
      some ("sleep_sessions[" ++ toString i ++ "] missing required field: duration_hours")
    else
      let duration := s.duration_hours.getD 0
      if duration < Config.MIN_SLEEP_DURATION ∨ Config.MAX_SLEEP_DURATION < duration then
        some ("sleep_sessions[" ++ toString i ++ "] has invalid duration: " ++ fmtQ duration)
      else firstStructuralError rest (i + 1)

/-- Python `str.strip()`, computed over the character list so that it
evaluates by reduction. -/
def pyStrip (s : String) : String :=
  ⟨((s.data.dropWhile Char.isWhitespace).reverse.dropWhile Char.isWhitespace).reverse⟩

/-- Source: `validate_task_request`, applied to the dict `validation_node` builds
(the three keys are present by construction, and `payload` is a dict). -/
def validate_task_request (task_id user_id : String) (payload : Payload) :
    Bool × Option String :=
  if pyStrip task_id = "" then (false, some "task_id must be a non-empty string")
  else if pyStrip user_id = "" then (false, some "user_id must be a non-empty string")
  else
    match payload.sleep_sessions with
    | none => (true, none)
    | some sessions =>
      if Config.MAX_SLEEP_SESSIONS_PER_TASK < sessions.length then
        (false, some ("Too many sleep sessions (max: " ++
          toString Config.MAX_SLEEP_SESSIONS_PER_TASK ++ ")"))
      else
        match firstStructuralError sessions 0 with
        | some msg => (false, some msg)
        | none => (true, none)

/-- Source: `validate_sleep_session` (secondary, per-session validation). -/
def validate_sleep_session (session : Session) : Bool × Option String :=
  if session.bedtime.isNone then (false, some "Missing required field: bedtime")
  else if session.waketime.isNone then (false, some "Missing required field: waketime")
  else if session.duration_hours.isNone then
    (false, some "Missing required field: duration_hours")
  else
    let duration := session.duration_hours.getD 0
    if duration < Config.MIN_SLEEP_DURATION ∨ Config.MAX_SLEEP_DURATION < duration then
      (false, some ("Invalid sleep duration: " ++ fmtQ duration ++ " hours"))
    else
      let effCheck : Bool × Option String :=
        match session.efficiency_score with
        | some score =>
          if score < 0 ∨ 100 < score then
            (false, some "efficiency_score must be between 0 and 100")
          else (true, none)
        | none => (true, none)
      if effCheck.1 = false then effCheck
      else
        match session.morning_mood with
        | some mood =>
          if mood < 1 ∨ 10 < mood then
            (false, some "morning_mood must be between 1 and 10")
          else (true, none)
        | none => (true, none)

/-! ## Pipeline nodes (`src/agent/nodes.py`) -/

/-- One call to the memory layer's API, recorded in trace order. -/
inductive MemOp where
  | stmGetSessions
  | ltmGetMemory
  | stmSaveSessions
  | ltmUpdateTrends
  | ltmUpdateRecs
deriving DecidableEq

/-- The persistent store's records for the request's user. -/
structure Store where
  stm : Option StmRecord := none
  ltm : Option LtmRecord := none
deriving DecidableEq

/-- Source: `validation_node`. -/
def validation_node (state : AgentState) : AgentState :=
  let vr := validate_task_request state.task_id state.user_id state.payload
  if vr.1 = false then
    { state with
      errors := state.errors ++ ["Validation error: " ++ vr.2.getD ""]
      status := "error" }
  else
    let sessions := state.payload.sleep_sessions.getD []
    let sessionErrs := sessions.enum.filterMap fun p =>
      (validate_sleep_session p.2).2.map fun m =>
        "Session " ++ toString p.1 ++ " validation error: " ++ m
    let state := { state with errors := state.errors ++ sessionErrs }
    if state.errors.isEmpty then { state with status := "processing" }
    else { state with status := "error" }

/-- Source: `_should_continue`: the conditional edge out of validation. -/
def should_continue (state : AgentState) : String :=
  if state.status = "error" ∨ state.errors ≠ [] then "error" else "continue"

/-- Source: `memory_fetch_node`: loads STM and LTM and records the two reads. -/
def memory_fetch_node (state : AgentState) (store : Store) :
    AgentState × List MemOp :=
  let stm_sessions := (store.stm.map (·.sessions)).getD []
  let ltm_data := store.ltm
  let payload_sessions := state.payload.sleep_sessions.getD []
  ({ state with
      stm_sessions := some stm_sessions
      ltm_data := ltm_data
      memory := some
        { stm_count := stm_sessions.length
          payload_count := payload_sessions.length
          ltm_available := ltm_data.isSome
          ltm_trends := (ltm_data.map (·.trends)).getD []
          ltm_patterns := (ltm_data.map (·.patterns)).getD []
          ltm_preferences := (ltm_data.map (·.preferences)).getD []
          total_sessions := stm_sessions.length + payload_sessions.length } },
   [.stmGetSessions, .ltmGetMemory])

/-- Source: `reasoning_node` (the optional Gemini path is disabled by the default
configuration `USE_GEMINI = false` and therefore omitted). -/
def reasoning_node (state : AgentState) : AgentState :=
  let stm_sessions := state.stm_sessions.getD []
  let payload_sessions := state.payload.sleep_sessions.getD []
  let all_sessions := stm_sessions ++ payload_sessions
  let profile := state.payload.profile
  let ltm_trends := (state.ltm_data.map (·.trends)).getD []
  let ltm_patterns := (state.ltm_data.map (·.patterns)).getD []
  let analysis := analyze all_sessions profile
  let analysis :=
    if ltm_trends.isEmpty then analysis
    else
      let analysis :=
        match ltm_trends.lookup "avg_duration" with
        | some v =>
          { analysis with duration_analysis :=
              { analysis.duration_analysis with ltm_average := some v } }
        | none => analysis
      match ltm_trends.lookup "avg_efficiency" with
      | some v =>
        { analysis with efficiency_analysis :=
            { analysis.efficiency_analysis with ltm_average := some v } }
      | none => analysis
  let analysis :=
    if ltm_patterns.isEmpty then analysis
    else { analysis with ltm_patterns := some ltm_patterns }
  { state with analysis := some analysis }

/-- The disjoint field set returned by the recommendation branch. -/
structure RecNodeResult where
  recommendations : Option RecsDict
  personalized_tips : List String
deriving DecidableEq

/-- Source: `recommendation_engine_node` (the exception path, which would return
the empty dict, is unreachable in this total model). -/
def recommendation_engine_node (state : AgentState) : RecNodeResult :=
  let analysis := state.analysis
  let profile := state.payload.profile
  let trends := (state.ltm_data.map (·.trends)).getD []
  let patterns := (state.ltm_data.map (·.patterns)).getD []
  let preferences := (state.ltm_data.map (·.preferences)).getD []
  let profile :=
    if !preferences.isEmpty then
      let pd := preferences.lookup "preferred_duration"
      let pb := preferences.lookup "preferred_bedtime"
      let base := profile.getD {}
      let base := match pd with
        | some v => { base with preferred_duration := some v }
        | none => base
      let base := match pb with
        | some v => { base with preferred_bedtime := some v }
        | none => base
      if profile.isNone && pd.isNone && pb.isNone then profile else some base
    else profile
  let recommendations := generate_recommendations analysis profile trends
  let pattern_recommendations := patterns.filterMap fun pattern =>
    if pattern.type = "consistent_bedtime" then
      some "Maintain your consistent bedtime routine"
    else if pattern.type = "sufficient_data" then
      some "Continue tracking for better insights"
    else none
  let recommendations :=
    if pattern_recommendations ≠ [] then
      dictInsert "personalized_tips"
        (.strs (getTips recommendations ++ pattern_recommendations)) recommendations
    else recommendations
  { recommendations := some recommendations
    personalized_tips := getTips recommendations }

/-- The disjoint field set returned by the scorer branch. -/
structure ScorerNodeResult where
  sleep_score : ℤ
  confidence : ℚ
deriving DecidableEq

/-- Source: `scorer_node`: payload sessions first, then STM sessions. -/
def scorer_node (state : AgentState) : ScorerNodeResult :=
  let payload_sessions := state.payload.sleep_sessions.getD []
  let stm_sessions := state.stm_sessions.getD []
  let all_sessions := payload_sessions ++ stm_sessions
  let score_result := calculate_score all_sessions state.analysis
  { sleep_score := score_result.sleep_score
    confidence := score_result.confidence }

/-- The issues `memory_write_node` persists:
`state.get('issues', []) or analysis.get('issues', [])`. -/
def effectiveIssues (state : AgentState) : List String :=
  if state.issues ≠ [] then state.issues
  else (state.analysis.map (·.issues)).getD []

/-- Source: `memory_write_node`: STM save of payload sessions, LTM trend update
over the full history, and the conditional LTM recommendations write. -/
def memory_write_node (P : DateParser) (retention_days now : ℤ)
    (state : AgentState) (store : Store) : AgentState × Store × List MemOp :=
  let payload_sessions := state.payload.sleep_sessions.getD []
  let existing_stm_sessions := state.stm_sessions.getD []
  let stmStep : Store × List MemOp :=
    if payload_sessions ≠ [] then
      let newStm := save_sessions P retention_days now store.stm payload_sessions
      ({ store with stm := some newStm }, [.stmSaveSessions])
    else (store, [])
  let store1 := stmStep.1
  let all_sessions := existing_stm_sessions ++ payload_sessions
  let trendStep : Store × List MemOp :=
    if all_sessions ≠ [] then
      let newLtmT := update_trends now store1.ltm all_sessions
      ({ store1 with ltm := some newLtmT }, [.ltmUpdateTrends])
    else (store1, [])
  let store2 := trendStep.1
  let issues := effectiveIssues state
  let has_recommendations := state.recommendations.isSome
  let has_score := 0 < state.sleep_score ∨ 0 < state.confidence
  let has_tips := state.personalized_tips ≠ []
  let has_issues := issues ≠ []
  let recStep : Store × List MemOp :=
    if has_recommendations ∨ has_score ∨ has_tips ∨ has_issues then
      let newLtm :=
        update_recommendations now store2.ltm (state.recommendations.getD [])
          state.sleep_score state.confidence state.personalized_tips (some issues)
      ({ store2 with ltm := some newLtm }, [.ltmUpdateRecs])
    else (store2, [])
  (state, recStep.1, stmStep.2 ++ trendStep.2 ++ recStep.2)

/-- Source: `formatter_node`. -/
def formatter_node (state : AgentState) : AgentState :=
  let analysis := state.analysis
  let issues := (analysis.map (·.issues)).getD []
  let summary := (analysis.map (·.summary)).getD "Sleep analysis completed."
  let result : ResultPayload :=
    { summary := summary
      issues := issues
      recommendations := state.recommendations
      sleep_score := state.sleep_score
      confidence := state.confidence
      personalized_tips := state.personalized_tips }
  { state with
    issues := issues
    summary := summary
    result := some result
    status := "completed" }

/-- The fan-in: merge the two branches' disjoint partial results into the
shared state. -/
def apply_fanout (state : AgentState) (recR : RecNodeResult)
    (scR : ScorerNodeResult) : AgentState :=
  { state with
    recommendations := recR.recommendations
    personalized_tips := recR.personalized_tips
    sleep_score := scR.sleep_score
    confidence := scR.confidence }

/-- The compiled workflow: `validation → (abort | memory_fetch →
reasoning → {recommendation ∥ scorer} → memory_write → formatter)`,
with the memory-API calls traced. -/
def run_workflow (P : DateParser) (retention_days now : ℤ)
    (state0 : AgentState) (store : Store) : AgentState × Store × List MemOp :=
  let s1 := validation_node state0
  if should_continue s1 = "error" then (s1, store, [])
  else
    let fetched := memory_fetch_node s1 store
    let s3 := reasoning_node fetched.1
    let recR := recommendation_engine_node s3
    let scR := scorer_node s3
    let s4 := apply_fanout s3 recR scR
    let written := memory_write_node P retention_days now s4 store
    let s6 := formatter_node written.1
    (s6, written.2.1, fetched.2 ++ written.2.2)

/-- The response envelope of `process_task`. -/
structure TaskResult where
  task_id : String
  status : String
  result : Option ResultPayload := none
  error : Option String := none
deriving DecidableEq

/-- Source: `process_task`: initialize the state from the request envelope, run
the workflow, shape the response. -/
def process_task (P : DateParser) (retention_days now : ℤ)
    (task_data : TaskRequest) (store : Store) : TaskResult × Store × List MemOp :=
  let initial_state : AgentState :=
    { task_id := task_data.task_id.getD ""
      user_id := task_data.user_id.getD ""
      payload := task_data.payload.getD {} }
  let ran := run_workflow P retention_days now initial_state store
  let final_state := ran.1
  if final_state.status = "error" ∨ final_state.errors ≠ [] then
    ({ task_id := final_state.task_id, status := "error"
       error := some (String.intercalate "; " final_state.errors) },
     ran.2.1, ran.2.2)
  else
    ({ task_id := final_state.task_id, status := "completed"
       result := final_state.result },
     ran.2.1, ran.2.2)

/-! ### Claim C7: a missing/blank `user_id` aborts before any memory access -/

/-- Claim C7: for every request whose `user_id` is absent or blank (whitespace
only), the pipeline takes the abort edge out of validation: the final
result has status `"error"`, no memory-layer call is made, and the store
is unchanged. -/
theorem missing_user_id_aborts (P : DateParser) (rd now : ℤ) (req : TaskRequest)
    (store : Store)
    (h : req.user_id = none ∨ ∃ u, req.user_id = some u ∧ pyStrip u = "") :
    (process_task P rd now req store).1.status = "error" ∧
    (process_task P rd now req store).2.2 = [] ∧
    (process_task P rd now req store).2.1 = store := by
  have huid : pyStrip (req.user_id.getD "") = "" := by
    rcases h with h | ⟨u, hu, ht⟩
    · rw [h]
      rfl
    · rw [hu]
      exact ht
  have hval : (validate_task_request (req.task_id.getD "") (req.user_id.getD "")
      (req.payload.getD {})).1 = false := by
    unfold validate_task_request
    by_cases ht : pyStrip (req.task_id.getD "") = ""
    · rw [if_pos ht]
    · rw [if_neg ht, if_pos huid]
  unfold process_task run_workflow validation_node
  simp only [hval, if_pos rfl]
  have herr : ∀ es : List String, es ++ ["Validation error: " ++
      ((validate_task_request (req.task_id.getD "") (req.user_id.getD "")
        (req.payload.getD {})).2.getD "")] ≠ [] := by
    intro es
    simp
  simp [should_continue]

theorem missing_user_id_aborts_witness :
    (process_task wParser 7 1000 { task_id := some "t1", payload := some {} }
        { }).1.status = "error" ∧
    (process_task wParser 7 1000 { task_id := some "t1", payload := some {} }
        { }).2.2 = [] ∧
    (process_task wParser 7 1000 { task_id := some "t1", payload := some {} }
        { }).2.1 = { } :=
  missing_user_id_aborts wParser 7 1000 _ _ (Or.inl rfl)

/-! ### Claim C8: when the Memory Writer writes LTM recommendations -/

/-- The LTM record's recommendation-related fields as a reader sees them
(absent record = empty defaults). -/
def recFields (o : Option LtmRecord) :
    Option RecsDict × Option ℤ × Option ℚ × Option (List String) × Option (List String) :=
  ((o.getD {}).recommendations, (o.getD {}).sleep_score, (o.getD {}).confidence,
   (o.getD {}).personalized_tips, (o.getD {}).issues)

theorem recFields_update_trends (now : ℤ) (o : Option LtmRecord)
    (sessions : List Session) :
    recFields (some (update_trends now o sessions)) = recFields o := by
  cases o <;> rfl

/-- Claim C8 (amended): the Memory Writer performs the LTM recommendations
write iff `recommendations` is present (any dict, *empty included*), or
`sleep_score > 0`, or `confidence > 0`, or the tips list is non-empty, or
the effective issues list is non-empty; when none holds the write is
skipped and the stored record's recommendation fields are unchanged. -/
theorem memory_write_recs_condition (P : DateParser) (rd now : ℤ)
    (state : AgentState) (store : Store) :
    (MemOp.ltmUpdateRecs ∈ (memory_write_node P rd now state store).2.2 ↔
      (state.recommendations.isSome = true ∨ 0 < state.sleep_score ∨
       0 < state.confidence ∨ state.personalized_tips ≠ [] ∨
       effectiveIssues state ≠ [])) ∧
    (¬ (state.recommendations.isSome = true ∨ 0 < state.sleep_score ∨
        0 < state.confidence ∨ state.personalized_tips ≠ [] ∨
        effectiveIssues state ≠ []) →
      recFields (memory_write_node P rd now state store).2.1.ltm =
        recFields store.ltm) := by
  constructor
  · unfold memory_write_node
    dsimp only
    split_ifs with hp ha hc <;> simp_all <;> tauto
  · intro hneg
    unfold memory_write_node
    dsimp only
    split_ifs with hp ha hc <;>
      first
        | (exfalso; apply hneg; tauto)
        | simp [recFields_update_trends]

def c8State : AgentState :=
  { task_id := "t", user_id := "u", payload := {}, recommendations := some [] }

/-- Claim C8 counterexample: with a present-but-empty recommendations dict and
zero score, zero confidence, no tips and no issues, the claim's condition
("at least one of recommendations non-empty, score>0, confidence>0, tips
non-empty, issues non-empty") is false — yet the code performs the LTM
recommendations write, because it only checks that `recommendations` is
not `None`. -/
theorem memory_write_claim_false :
    MemOp.ltmUpdateRecs ∈ (memory_write_node wParser 7 0 c8State {}).2.2 ∧
    c8State.recommendations.getD [] = [] ∧ c8State.sleep_score ≤ 0 ∧
    c8State.confidence ≤ 0 ∧ c8State.personalized_tips = [] ∧
    effectiveIssues c8State = [] := by
  refine ⟨?_, rfl, le_refl _, le_refl _, rfl, rfl⟩
  unfold memory_write_node
  simp [c8State, effectiveIssues]

theorem memory_write_recs_condition_witness :
    MemOp.ltmUpdateRecs ∈
      (memory_write_node wParser 7 0
        { task_id := "t", user_id := "u", payload := {}, sleep_score := 50 } {}).2.2 ∧
    recFields (memory_write_node wParser 7 0
        { task_id := "t", user_id := "u", payload := {} } {}).2.1.ltm =
      recFields (Store.ltm {}) := by
  constructor
  · exact (memory_write_recs_condition wParser 7 0
      { task_id := "t", user_id := "u", payload := {}, sleep_score := 50 } {}).1.mpr
      (Or.inr (Or.inl (by norm_num)))
  · exact (memory_write_recs_condition wParser 7 0
      { task_id := "t", user_id := "u", payload := {} } {}).2
      (by simp [effectiveIssues])

/-! ### Claim C9: the size of the personalized tips list -/

theorem lookup_dictInsert_self {α : Type} (k : String) (v : α)
    (m : List (String × α)) : (dictInsert k v m).lookup k = some v := by
  induction m with
  | nil => simp [dictInsert, List.lookup]
  | cons p rest ih =>
    obtain ⟨pk, pv⟩ := p
    by_cases hpk : pk = k
    · subst hpk
      simp [dictInsert, List.lookup]
    · have hbeq : (k == pk) = false := by
        simp [Ne.symm hpk]
      simp [dictInsert, hpk, List.lookup, hbeq, ih]

theorem getTips_generate (analysis : Option Analysis) (profile : Option Profile)
    (trends : List (String × ℚ)) :
    getTips (generate_recommendations analysis profile trends) =
      generate_personalized_tips analysis profile trends := rfl

theorem generate_personalized_tips_le_six (analysis : Option Analysis)
    (profile : Option Profile) (trends : List (String × ℚ)) :
    (generate_personalized_tips analysis profile trends).length ≤ 6 := by
  simp only [generate_personalized_tips]
  rw [List.length_take]
  exact min_le_left _ _

theorem identify_patterns_le_two (sessions : List Session) :
    (identify_patterns sessions).length ≤ 2 := by
  unfold identify_patterns
  dsimp only
  split_ifs <;> simp

theorem getTips_dictInsert_tips (l : List String) (m : RecsDict) :
    getTips (dictInsert "personalized_tips" (.strs l) m) = l := by
  simp [getTips, lookup_dictInsert_self]

/-- The node's tips are the recommender's capped list plus at most one
entry per stored LTM pattern. -/
theorem recommendation_node_tips_le (state : AgentState) :
    (recommendation_engine_node state).personalized_tips.length ≤
      6 + ((state.ltm_data.map (·.patterns)).getD []).length := by
  unfold recommendation_engine_node
  dsimp only
  split_ifs <;>
    first
      | (rw [getTips_dictInsert_tips, List.length_append, getTips_generate]
         exact add_le_add (generate_personalized_tips_le_six _ _ _)
           (List.length_filterMap_le _ _))
      | (rw [getTips_generate]
         exact le_trans (generate_personalized_tips_le_six _ _ _) (Nat.le_add_right 6 _))

/-- Claim C9 (amended): the recommender itself caps its personalized tips at 6
(in fact at most 5 are reachable), and the recommendation node may append
one extra tip per stored LTM pattern of a recognized type; since the LTM
pattern detector emits at most two patterns, the tips list the pipeline
attaches contains at most 8 entries. -/
theorem recommendation_node_tips_bound (state : AgentState) (ss : List Session)
    (hp : (state.ltm_data.map (·.patterns)).getD [] = identify_patterns ss) :
    (recommendation_engine_node state).personalized_tips.length ≤ 8 := by
  have h := recommendation_node_tips_le state
  rw [hp] at h
  have h2 := identify_patterns_le_two ss
  omega

theorem recommendation_node_tips_bound_witness :
    (recommendation_engine_node
      { task_id := "t", user_id := "u", payload := {} }).personalized_tips.length ≤ 8 :=
  recommendation_node_tips_bound { task_id := "t", user_id := "u", payload := {} } []
    (by simp [identify_patterns])

def c9Analysis : Analysis :=
  { issues := ["short duration", "inconsistent schedule", "low efficiency"] }

def c9Profile : Profile := { exercise := some "rarely" }

def c9Ltm : LtmRecord :=
  { trends := [("avg_duration", 5)]
    patterns :=
      [{ type := "consistent_bedtime", description := "cb", confidence := 1 },
       { type := "sufficient_data", description := "sd", confidence := 1 }] }

def c9State : AgentState :=
  { task_id := "t", user_id := "u"
    payload := { profile := some c9Profile }
    analysis := some c9Analysis
    ltm_data := some c9Ltm }

theorem c9_gen_tips_len :
    (generate_personalized_tips (some c9Analysis) (some c9Profile)
      [("avg_duration", 5)]).length = 5 := by
  norm_num [generate_personalized_tips, c9Analysis, c9Profile, List.lookup,
    Config.OPTIMAL_SLEEP_DURATION_MIN]

/-- Claim C9 counterexample: with three analysis issues, a rarely-exercising
profile, an LTM trend of 5 h average duration and both detector patterns
stored, the pipeline attaches 7 personalized tips — more than the claimed
cap of 6 (the recommendation node appends its pattern tips *after* the
recommender's 6-cap). -/
theorem recommendation_tips_claim_false :
    ¬ ((recommendation_engine_node c9State).personalized_tips.length ≤ 6) := by
  have hprs : (List.filterMap (fun pattern =>
      if pattern.type = "consistent_bedtime" then
        some "Maintain your consistent bedtime routine"
      else if pattern.type = "sufficient_data" then
        some "Continue tracking for better insights"
      else none)
      ([{ type := "consistent_bedtime", description := "cb", confidence := 1 },
        { type := "sufficient_data", description := "sd", confidence := 1 }] : List Pattern))
      = ["Maintain your consistent bedtime routine",
         "Continue tracking for better insights"] := by
    simp [(by decide : ¬ ("sufficient_data" : String) = "consistent_bedtime")]
  have hnode : (recommendation_engine_node c9State).personalized_tips.length = 7 := by
    unfold recommendation_engine_node
    dsimp only [c9State, c9Ltm, Option.map, Option.getD]
    rw [hprs]
    rw [if_pos (by simp : (["Maintain your consistent bedtime routine",
      "Continue tracking for better insights"] : List String) ≠ [])]
    rw [getTips_dictInsert_tips, List.length_append, getTips_generate,
      if_neg (by decide : ¬ ((!(([] : List (String × PrefVal))).isEmpty) = true)),
      c9_gen_tips_len]
    rfl
  omega

end SleepAgent
